import Mathlib

/-!
Verification of the FTP server in `server_ftp.py` (class `AnonymusFtpServerThread`).

POSIX paths are modelled as a pair of an absolute flag and a list of
components: the string `"/a/b"` is `⟨true, ["a", "b"]⟩` and `"a/../b"` is
`⟨false, ["a", "..", "b"]⟩`.  String-level operations of `os.path` are
modelled at this component level:
  * `Path(p).anchor` is `"/"` for an absolute path and `""` otherwise, and
    `p.lstrip(anchor)` strips the leading slashes, i.e. clears the flag;
  * `os.path.join` discards the left operand when the right one is absolute,
    otherwise concatenates components;
  * `os.path.realpath` / `os.path.abspath` normalize `.` and `..`
    lexically, clamping `..` at the filesystem root (the filesystem is
    modelled without symbolic links);
  * `os.path.commonpath` is the longest common component run, and the
    source's `self.root in common` membership test is Python's substring
    test on the rendered strings.
-/

namespace FtpSock

abbrev Comp := String

/-- A POSIX path: absolute flag plus raw components (may contain `"."` and `".."`). -/
structure PyPath where
  absFlag : Bool
  comps : List Comp
deriving DecidableEq

/-- `_trim_anchor`: `Path(path).anchor` is `"/"` for an absolute posix path and
`""` for a relative one; `path.lstrip(anchor)` removes the leading slashes,
leaving the components untouched. -/
def trimAnchor (p : PyPath) : PyPath :=
  ⟨false, p.comps⟩

/-- `os.path.join(a, b)`: an absolute right operand discards the left one. -/
def pyJoin (a b : PyPath) : PyPath :=
  if b.absFlag then b else ⟨a.absFlag, a.comps ++ b.comps⟩

/-- One step of lexical normalization (the component loop of
`posixpath.normpath`): `""` and `"."` are dropped; `".."` pops the last kept
component, clamps at the root of an absolute path, and is kept at the head of
a relative path.  The accumulator holds the kept components reversed. -/
def normStep (ab : Bool) (stack : List Comp) (c : Comp) : List Comp :=
  if c = "" ∨ c = "." then stack
  else if c = ".." then
    match stack with
    | top :: rest => if top = ".." then c :: top :: rest else rest
    | [] => if ab then [] else [".."]
  else c :: stack

/-- Lexical normalization: `os.path.normpath`, and also `os.path.realpath` /
`os.path.abspath` on an absolute path of a filesystem without symlinks. -/
def pyNormalize (p : PyPath) : PyPath :=
  ⟨p.absFlag, (p.comps.foldl (normStep p.absFlag) []).reverse⟩

/-- `"/".join(components)`, the rendering used inside `os.path` strings. -/
def renderComps : List Comp → String
  | [] => ""
  | [c] => c
  | c :: cs => c ++ "/" ++ renderComps cs

/-- Render a path back to its `os.path` string. -/
def render (p : PyPath) : String :=
  (if p.absFlag then "/" else "") ++ renderComps p.comps

/-- The component computation of `os.path.commonpath` on two absolute paths:
the longest common run of leading components. -/
def commonPathComps : List Comp → List Comp → List Comp
  | a :: as, b :: bs => if a = b then a :: commonPathComps as bs else []
  | _, _ => []

/-- Python's `needle in hay` substring test on strings. -/
def pyIn (needle hay : String) : Bool :=
  decide (needle.data <:+: hay.data)

/-- `_is_name_valid` of `server_ftp.py`: trim the anchor, join onto **root**
(not cwd), canonicalize with `os.path.realpath`, take
`os.path.commonpath([root, result])` and test `self.root in common` (Python
substring membership). -/
def isNameValid (root : PyPath) (name : PyPath) : Bool :=
  let trimmed := trimAnchor name
  let result := pyNormalize (pyJoin root trimmed)
  let common := commonPathComps root.comps result.comps
  pyIn (render root) (render ⟨true, common⟩)

example : isNameValid ⟨true, ["a", "b"]⟩ ⟨false, ["..", "x"]⟩ = false := by decide

example : isNameValid ⟨true, ["a", "b"]⟩ ⟨false, ["x"]⟩ = true := by decide

example : isNameValid ⟨true, ["a", "b"]⟩ ⟨true, ["..", "..", "..", "etc"]⟩ = false := by
  decide

example : isNameValid ⟨true, ["a", "b"]⟩ ⟨false, ["..", "..", "a", "b", "x"]⟩ = true := by
  decide

/-- `pathlib.PurePosixPath` parsing of components: empty and `"."` parts are
dropped, `".."` parts are kept. -/
def pathlibComps (cs : List Comp) : List Comp :=
  cs.filter (fun c => decide (c ≠ "" ∧ c ≠ "."))

/-- The session's `self.cwd` attribute.  `__init__` stores the `str` returned
by `os.path.abspath`; the `CWD` handler stores the `pathlib.Path` returned by
`Path.joinpath(...).absolute()`.  Python's `==` between a `Path` and a `str`
is always `False`, so the two cases must stay distinguishable. -/
inductive CwdVal where
  | ofStr (p : PyPath)
  | ofPath (p : PyPath)
deriving DecidableEq

/-- The underlying path of the cwd attribute (what `os.path.join(self.cwd, …)`
sees: it accepts both `str` and `Path`). -/
def cwdPath : CwdVal → PyPath
  | .ofStr p => p
  | .ofPath p => p

/-- The guard `self.cwd == self.root` of `CDUP`: `self.root` is always a
`str`, and a `pathlib.Path` never compares equal to a `str`. -/
def cwdEqRootStr (cwd : CwdVal) (root : PyPath) : Bool :=
  match cwd with
  | .ofStr p => decide (p = root)
  | .ofPath _ => false

/-- The filesystem: existing directories and files with contents, all keyed by
normalized absolute component lists.  No symlinks, no permissions. -/
structure FS where
  dirs : List (List Comp)
  files : List (List Comp × String)
deriving DecidableEq

def FS.isDir (fs : FS) (p : List Comp) : Bool :=
  decide (p ∈ fs.dirs)

def FS.fileContent (fs : FS) (p : List Comp) : Option String :=
  (fs.files.find? (fun e => decide (e.fst = p))).map (fun e => e.snd)

/-- `os.path.exists` / `Path.exists` on a resolved path. -/
def FS.existsPath (fs : FS) (p : List Comp) : Bool :=
  fs.isDir p || (fs.fileContent p).isSome

/-- `len(os.listdir(p)) > 0`: some entry lies strictly below `p`. -/
def FS.hasChild (fs : FS) (p : List Comp) : Bool :=
  (fs.dirs ++ fs.files.map (fun e => e.fst)).any
    (fun q => decide (p <+: q ∧ q ≠ p))

/-- The names of the direct children of directory `p` (`Path.iterdir`). -/
def FS.childNames (fs : FS) (p : List Comp) : List Comp :=
  (fs.dirs ++ fs.files.map (fun e => e.fst)).filterMap
    (fun q => if q.length = p.length + 1 ∧ p <+: q then q.getLast? else none)

/-- `open(path, mode)` followed by `f.write(content)`: fails (`None`) when the
parent directory is missing or the target is a directory; mode `"a"` appends,
modes `"w"`/`"wb"` replace. -/
def FS.writeFile (fs : FS) (p : List Comp) (content : String) (append : Bool) :
    Option FS :=
  if ¬ fs.isDir p.dropLast ∨ fs.isDir p then none
  else
    let old := (fs.fileContent p).getD ""
    let newContent := if append then old ++ content else content
    some { fs with
      files := (fs.files.filter (fun e => decide (e.fst ≠ p))) ++ [(p, newContent)] }

/-- Move every entry at or below `old` to the corresponding path below `new`. -/
def remapPath (old new p : List Comp) : List Comp :=
  if old <+: p then new ++ p.drop old.length else p

/-- `os.rename(old, new)`: fails (`None`) when the source does not exist or
the destination's parent directory is missing. -/
def FS.renameEntry (fs : FS) (old new : List Comp) : Option FS :=
  if fs.existsPath old ∧ fs.isDir new.dropLast = true then
    some ⟨fs.dirs.map (remapPath old new),
          fs.files.map (fun e => (remapPath old new e.fst, e.snd))⟩
  else none

def FS.removeFile (fs : FS) (p : List Comp) : FS :=
  { fs with files := fs.files.filter (fun e => decide (e.fst ≠ p)) }

def FS.removeDir (fs : FS) (p : List Comp) : FS :=
  { fs with dirs := fs.dirs.filter (fun q => decide (q ≠ p)) }

/-- The per-connection session state of `AnonymusFtpServerThread`.  `Option`
fields model attributes that `__init__` does not set (`filename_cache`,
`data_addr`, `data_port`, `serversocket`): `none` means reading the attribute
raises `AttributeError`.  `datasocket` records whether the attribute has ever
been assigned a socket object. -/
structure Session where
  root : PyPath
  cwd : CwdVal
  pasvMode : Bool
  ttype : String
  filenameCache : Option PyPath
  dataAddr : Option String
  dataPort : Option Nat
  serversocket : Option (String × Nat)
  datasocket : Bool
deriving DecidableEq

/-- `__init__`: `root = os.path.abspath(root_dir)` (given here already
normalized and absolute), `cwd = root` (a `str`), `pasv_mode = False`,
`type = "A"`. -/
def Session.init (root : PyPath) : Session :=
  ⟨root, .ofStr root, false, "A", none, none, none, none, false⟩

/-- Outcome of one handler invocation: the value returned (`ok status`) or an
uncaught exception (`exc`), which the command loop turns into a `500` reply. -/
inductive HResult where
  | ok (status : Nat)
  | exc
deriving DecidableEq

/-- The data socket acquired by `_start_datasock`. -/
inductive DataConn where
  | accepted
  | dialed (addr : String) (port : Nat)
deriving DecidableEq

/-- Full observable outcome of one handler: result, updated session and
filesystem, preliminary control replies sent before the final one (the `150`
lines), payload sent on the data channel, and the `(h1…h4,p1,p2)` pair
advertised by a `227` reply. -/
structure Out where
  res : HResult
  sess : Session
  fs : FS
  pre : List Nat
  sentData : List String
  pasvAdvert : Option (String × Nat × Nat)
deriving DecidableEq

/-- The status code the client sees as the final reply: the handler's value,
or `500` when the loop's `except Exception` branch fires. -/
def Out.status (o : Out) : Nat :=
  match o.res with
  | .ok n => n
  | .exc => 500

def mkOut (r : HResult) (s : Session) (fs : FS) : Out :=
  ⟨r, s, fs, [], [], none⟩

/-- `_start_datasock`: returns the acquired connection (`none` when the call
raises) together with the session as the call leaves it.  In passive mode it
accepts on the listener; the accept raises *before* the assignment when the
`serversocket` attribute was never set, so the session is unchanged.  In
active mode `self.datasocket = socket.socket(...)` runs first and only then
`connect` reads `data_addr`/`data_port`: when those were never set the
`AttributeError` leaves a stale, unconnected socket in `datasocket`.  (The
closing of sockets by `_stop_datasock` is not tracked: the `datasocket` and
`serversocket` fields record attribute assignment, not open state.) -/
def startDatasock (s : Session) : Option DataConn × Session :=
  if s.pasvMode then
    match s.serversocket with
    | some _ => (some .accepted, { s with datasocket := true })
    | none => (none, s)
  else
    match s.dataAddr, s.dataPort with
    | some a, some p => (some (.dialed a p), { s with datasocket := true })
    | _, _ => (none, { s with datasocket := true })

/-- The path a filesystem-touching command operates on:
`os.path.join(self.cwd, arg)` resolved by the OS (equivalently
`os.path.abspath` of it, the filesystem having no symlinks). -/
def opPath (s : Session) (arg : PyPath) : List Comp :=
  (pyNormalize (pyJoin (cwdPath s.cwd) arg)).comps

/-- Modelled from the spec: `_recvuntil(self.bcrlf, …)` is implemented in
`server_base.py`, which is not part of the sources; per §6 the byte-stream
collaborator offers a `readLine()` that returns the bytes of one line
terminated by CRLF.  We return the bytes before the first CRLF (all of them
when the peer closes without sending one). -/
def takeBeforeCRLF : List Char → List Char
  | '\r' :: '\n' :: _ => []
  | c :: rest => c :: takeBeforeCRLF rest
  | [] => []

/-- Modelled from the spec: one `readLine()` on a byte stream. -/
def recvLine (s : String) : String :=
  ⟨takeBeforeCRLF s.data⟩

/-- `CWD`: validate, trim the anchor, `Path.joinpath(Path(self.root),
Path(arg_tr))` (pathlib drops `"."` parts and keeps `".."` parts), check
existence, then store the `Path` object returned by `.absolute()` (which does
not normalize `".."`). -/
def execCWD (s : Session) (fs : FS) (arg : PyPath) : Out :=
  if isNameValid s.root arg = false then mkOut (.ok 553) s fs
  else
    let argTr := trimAnchor arg
    let location : PyPath := ⟨true, s.root.comps ++ pathlibComps argTr.comps⟩
    if fs.existsPath (pyNormalize location).comps = false then mkOut (.ok 553) s fs
    else mkOut (.ok 250) { s with cwd := .ofPath location } fs

/-- `CDUP`: refuse when `self.cwd == self.root` (a `str`/`Path` comparison),
otherwise store the `str` `os.path.abspath(os.path.join(self.cwd, ".."))`. -/
def execCDUP (s : Session) (fs : FS) : Out :=
  if cwdEqRootStr s.cwd s.root then mkOut (.ok 553) s fs
  else
    mkOut (.ok 230)
      { s with cwd := .ofStr (pyNormalize (pyJoin (cwdPath s.cwd) ⟨false, [".."]⟩)) } fs

/-- `MKD`: validate, `os.mkdir(os.path.join(self.cwd, arg))`; only
`FileExistsError` is caught (`553`), a missing parent raises. -/
def execMKD (s : Session) (fs : FS) (arg : PyPath) : Out :=
  if isNameValid s.root arg = false then mkOut (.ok 553) s fs
  else
    let p := opPath s arg
    if fs.existsPath p then mkOut (.ok 553) s fs
    else if fs.isDir p.dropLast = false then mkOut .exc s fs
    else mkOut (.ok 250) s { fs with dirs := fs.dirs ++ [p] }

/-- `RMD`: validate, check existence, then `os.listdir` — which sits outside
the `try` and raises `NotADirectoryError` out of the handler when the target
is a file — then refuse non-empty directories (`553`) and `os.rmdir` with
every exception caught (`553`). -/
def execRMD (s : Session) (fs : FS) (arg : PyPath) : Out :=
  if isNameValid s.root arg = false then mkOut (.ok 553) s fs
  else
    let p := opPath s arg
    if fs.existsPath p = false then mkOut (.ok 553) s fs
    else if fs.isDir p = false then mkOut .exc s fs
    else if fs.hasChild p then mkOut (.ok 553) s fs
    else mkOut (.ok 250) s (fs.removeDir p)

/-- `DELE`: validate, check existence, `os.remove` uncaught — deleting a
directory raises `IsADirectoryError` out of the handler. -/
def execDELE (s : Session) (fs : FS) (arg : PyPath) : Out :=
  if isNameValid s.root arg = false then mkOut (.ok 553) s fs
  else
    let p := opPath s arg
    if fs.existsPath p = false then mkOut (.ok 553) s fs
    else
      match fs.fileContent p with
      | some _ => mkOut (.ok 250) s (fs.removeFile p)
      | none => mkOut .exc s fs

/-- `RNFR`: validate, check that `os.path.abspath(os.path.join(self.cwd, arg))`
exists, then `self.filename_cache = arg`. -/
def execRNFR (s : Session) (fs : FS) (arg : PyPath) : Out :=
  if isNameValid s.root arg = false then mkOut (.ok 553) s fs
  else if fs.existsPath (opPath s arg) = false then mkOut (.ok 553) s fs
  else mkOut (.ok 350) { s with filenameCache := some arg } fs

/-- `RNTO`: validate, then read `self.filename_cache` (raises
`AttributeError` when it was never assigned) and `os.rename` with every
exception caught (`553`).  The cache is never cleared. -/
def execRNTO (s : Session) (fs : FS) (arg : PyPath) : Out :=
  if isNameValid s.root arg = false then mkOut (.ok 553) s fs
  else
    match s.filenameCache with
    | none => mkOut .exc s fs
    | some old =>
      match fs.renameEntry (opPath s old) (opPath s arg) with
      | some fs' => mkOut (.ok 250) s fs'
      | none => mkOut (.ok 553) s fs

/-- `RETR`: validate, check existence, reply `150`, acquire the data socket,
read the file as text and send it followed by CRLF, `_stop_datasock` (socket
closure is not tracked, see `startDatasock`), reply `250`.  Opening a
directory raises after the `150`. -/
def execRETR (s : Session) (fs : FS) (arg : PyPath) : Out :=
  if isNameValid s.root arg = false then mkOut (.ok 553) s fs
  else
    let p := opPath s arg
    if fs.existsPath p = false then mkOut (.ok 553) s fs
    else
      match startDatasock s with
      | (none, s1) => ⟨.exc, s1, fs, [150], [], none⟩
      | (some _, s1) =>
        match fs.fileContent p with
        | none => ⟨.exc, s1, fs, [150], [], none⟩
        | some data => ⟨.ok 250, s1, fs, [150], [data ++ "\r\n"], none⟩

/-- Result of `_create_or_append`: `True`, `False`, or an uncaught exception. -/
inductive CAResult where
  | success
  | failure
  | exc
deriving DecidableEq

/-- `_create_or_append(mode, filename)`: validate (returning `False` before
the `150` when the name is rejected), reply `150`, acquire the data socket
(uncaught on failure, leaving the session as `_start_datasock` left it), read
one line from it, and write it to `os.path.join(self.cwd, filename)`, catching
write errors (`False`).  In type `"I"` the received text is encoded to bytes
first, and writing those bytes to a text-mode file (`mode` `"w"` or `"a"`)
raises `TypeError` inside the `try`, caught as `False`; the session's type is
only ever `"A"` or `"I"` and `STOR` picks `"wb"` exactly for `"I"`, so the
converse str-into-binary mismatch cannot occur there. -/
def createOrAppend (s : Session) (fs : FS) (mode : String) (arg : PyPath)
    (incoming : String) : CAResult × Session × FS × List Nat :=
  if isNameValid s.root arg = false then (.failure, s, fs, [])
  else
    match startDatasock s with
    | (none, s1) => (.exc, s1, fs, [150])
    | (some _, s1) =>
      let content := recvLine incoming
      if s1.ttype = "I" ∧ mode ≠ "wb" then (.failure, s1, fs, [150])
      else
        match fs.writeFile (opPath s1 arg) content (mode = "a") with
        | some fs' => (.success, s1, fs', [150])
        | none => (.failure, s1, fs, [150])

/-- `STOR`: mode `"w"` for type `"A"`, `"wb"` otherwise; `226` on success,
`501` on `False`. -/
def execSTOR (s : Session) (fs : FS) (arg : PyPath) (incoming : String) : Out :=
  match createOrAppend s fs (if s.ttype = "A" then "w" else "wb") arg incoming with
  | (.success, s1, fs1, pre) => ⟨.ok 226, s1, fs1, pre, [], none⟩
  | (.failure, s1, fs1, pre) => ⟨.ok 501, s1, fs1, pre, [], none⟩
  | (.exc, s1, fs1, pre) => ⟨.exc, s1, fs1, pre, [], none⟩

/-- `APPE` (mode `"a"`): `226` on success, `501` on `False`. -/
def execAPPE (s : Session) (fs : FS) (arg : PyPath) (incoming : String) : Out :=
  match createOrAppend s fs "a" arg incoming with
  | (.success, s1, fs1, pre) => ⟨.ok 226, s1, fs1, pre, [], none⟩
  | (.failure, s1, fs1, pre) => ⟨.ok 501, s1, fs1, pre, [], none⟩
  | (.exc, s1, fs1, pre) => ⟨.exc, s1, fs1, pre, [], none⟩

/-- `LIST` / `NLST`: reply `150`, acquire the data socket, iterate
`Path(self.cwd).iterdir()` — which raises out of the handler (after the `150`)
when cwd is missing or not a directory — sending one line per entry, then
reply `226`.  Only the entry name part of each listing line is modelled; the
permission/size/date fields come from `stat` and the clock, collaborators
outside the core. -/
def execLIST (s : Session) (fs : FS) : Out :=
  match startDatasock s with
  | (none, s1) => ⟨.exc, s1, fs, [150], [], none⟩
  | (some _, s1) =>
    let dirP := (pyNormalize (cwdPath s.cwd)).comps
    if fs.isDir dirP = false then ⟨.exc, s1, fs, [150], [], none⟩
    else
      let children := fs.childNames dirP
      ⟨.ok 226, s1, fs, [150], children.map (fun n => n ++ "\r\n"), none⟩

/-- `ABOR`: a first `datasocket.close()` inside `try/except` (swallowed), then
`_stop_datasock`, whose attribute accesses raise when no data socket was ever
opened or (in passive mode) no listener exists. -/
def execABOR (s : Session) (fs : FS) : Out :=
  if s.datasocket = false then mkOut .exc s fs
  else if s.pasvMode ∧ s.serversocket = none then mkOut .exc s fs
  else mkOut (.ok 226) s fs

/-- `TYPE`: accept `"A"` and `"I"`, reject the rest with `500`. -/
def execTYPE (s : Session) (fs : FS) (arg : String) : Out :=
  if arg = "A" ∨ arg = "I" then mkOut (.ok 200) { s with ttype := arg } fs
  else mkOut (.ok 500) s fs

/-- `STRU`: only `"F"` is accepted. -/
def execSTRU (s : Session) (fs : FS) (arg : String) : Out :=
  if arg = "F" then mkOut (.ok 200) s fs else mkOut (.ok 500) s fs

/-- `PORT h1,h2,h3,h4,p1,p2`: record the active-mode target,
`data_port = (p1 << 8) + p2`. -/
def execPORT (s : Session) (fs : FS) (h : String) (p1 p2 : Nat) : Out :=
  mkOut (.ok 200) { s with dataAddr := some h, dataPort := some ((p1 <<< 8) + p2) } fs

/-- The first byte of the port encoding in a `227` reply:
`self.data_port >> 8 & 0xFF`. -/
def pasvP1 (port : Nat) : Nat :=
  (port >>> 8) &&& 255

/-- The second byte of the port encoding in a `227` reply:
`self.data_port & 0xFF`. -/
def pasvP2 (port : Nat) : Nat :=
  port &&& 255

/-- The `PORT` command's decoding of the two port bytes. -/
def portDecode (p1 p2 : Nat) : Nat :=
  (p1 <<< 8) + p2

/-- The host part of a `227` reply: `self.data_addr.replace(".", ",")`. -/
def pasvHostEnc (h : String) : String :=
  h.replace "." ","

/-- `PASV`: set `pasv_mode`, bind a listener (the ephemeral address the OS
hands out is the `bound` argument), record its address as
`data_addr`/`data_port`, and advertise it in the `227` reply. -/
def execPASV (s : Session) (fs : FS) (bound : String × Nat) : Out :=
  ⟨.ok 227,
   { s with pasvMode := true, serversocket := some bound,
            dataAddr := some bound.1, dataPort := some bound.2 },
   fs, [], [],
   some (pasvHostEnc bound.1, pasvP1 bound.2, pasvP2 bound.2)⟩

/-- One parsed control-channel command with the environment data its handler
consumes (the bytes a client sends on the data channel for `STOR`/`APPE`, the
address the OS binds for `PASV`).  `noMethod` stands for the verbs of
`ALLOWED_COMMANDS` that have no handler method (ALLO, HELP, MODE, REIN, REST,
SITE, STAT, SMNT, STOU): `getattr` raises for them. -/
inductive Cmd where
  | abor
  | acct
  | noop
  | syst
  | feat
  | user
  | pass
  | quit
  | pwd
  | stru (arg : String)
  | typeCmd (arg : String)
  | port (h : String) (p1 p2 : Nat)
  | pasv (bound : String × Nat)
  | cwd (arg : PyPath)
  | cdup
  | mkd (arg : PyPath)
  | rmd (arg : PyPath)
  | dele (arg : PyPath)
  | rnfr (arg : PyPath)
  | rnto (arg : PyPath)
  | retr (arg : PyPath)
  | stor (arg : PyPath) (incoming : String)
  | appe (arg : PyPath) (incoming : String)
  | listCmd
  | nlst
  | noMethod
deriving DecidableEq

/-- Dispatch of one allowed verb to its handler (`getattr(self, cmd)`). -/
def execCmd (c : Cmd) (s : Session) (fs : FS) : Out :=
  match c with
  | .abor => execABOR s fs
  | .acct => mkOut (.ok 401) s fs
  | .noop => mkOut (.ok 200) s fs
  | .syst => mkOut (.ok 215) s fs
  | .feat => mkOut (.ok 500) s fs
  | .user => mkOut (.ok 230) s fs
  | .pass => mkOut (.ok 230) s fs
  | .quit => mkOut (.ok 221) s fs
  | .pwd => mkOut (.ok 257) s fs
  | .stru arg => execSTRU s fs arg
  | .typeCmd arg => execTYPE s fs arg
  | .port h p1 p2 => execPORT s fs h p1 p2
  | .pasv bound => execPASV s fs bound
  | .cwd arg => execCWD s fs arg
  | .cdup => execCDUP s fs
  | .mkd arg => execMKD s fs arg
  | .rmd arg => execRMD s fs arg
  | .dele arg => execDELE s fs arg
  | .rnfr arg => execRNFR s fs arg
  | .rnto arg => execRNTO s fs arg
  | .retr arg => execRETR s fs arg
  | .stor arg incoming => execSTOR s fs arg incoming
  | .appe arg incoming => execAPPE s fs arg incoming
  | .listCmd => execLIST s fs
  | .nlst => execLIST s fs
  | .noMethod => mkOut .exc s fs

/-- One iteration's input in the `run` loop: the stream closed (`recv`
returned empty bytes, so the parsed verb is empty and the loop breaks), a verb
outside `ALLOWED_COMMANDS` (`500`, continue), or an allowed command. -/
inductive Event where
  | closed
  | unknownCmd
  | known (c : Cmd)
deriving DecidableEq

/-- The `run` loop of `server_ftp.py`: read a line, break on an empty verb,
reply `500` to unknown verbs, dispatch allowed ones (replying `500` when the
handler raises), and continue.  Returns every control-channel status sent (in
order, preliminary `150`s included) with the final session and filesystem. -/
def runLoop (s : Session) (fs : FS) : List Event → List Nat × Session × FS
  | [] => ([], s, fs)
  | .closed :: _ => ([], s, fs)
  | .unknownCmd :: rest =>
    let r := runLoop s fs rest
    (500 :: r.1, r.2)
  | .known c :: rest =>
    let o := execCmd c s fs
    let r := runLoop o.sess o.fs rest
    (o.pre ++ o.status :: r.1, r.2)

/-- The PathJail resolve algorithm as §4.1 of the spec words it: strip the
anchor from the supplied name, join it onto **cwd**, canonicalize, and accept
exactly when the canonical root is a component-wise prefix of the canonical
result.  Written from the spec's words, for comparison with `isNameValid`
(which follows the source). -/
def specPathJailValid (root cwd name : PyPath) : Bool :=
  let trimmed := trimAnchor name
  let result := pyNormalize (pyJoin cwd trimmed)
  decide ((pyNormalize root).comps <+: result.comps)

/-- A cwd value is root itself or a proper descendant of root: its underlying
path is absolute and root's components lead its components. -/
def cwdInsideRoot (cwd : CwdVal) (root : PyPath) : Prop :=
  (cwdPath cwd).absFlag = true ∧ root.comps <+: (pyNormalize (cwdPath cwd)).comps

instance (cwd : CwdVal) (root : PyPath) : Decidable (cwdInsideRoot cwd root) := by
  unfold cwdInsideRoot
  infer_instance

/- ------------------------------------------------------------------ -/
/- Helper lemmas                                                      -/
/- ------------------------------------------------------------------ -/

theorem commonPathComps_self_sub (a b : List Comp) : commonPathComps a b <+: a := by
  induction a generalizing b with
  | nil => cases b <;> simp [commonPathComps]
  | cons x xs ih =>
    cases b with
    | nil => simp [commonPathComps]
    | cons y ys =>
      by_cases hxy : x = y
      · subst hxy
        simp only [commonPathComps, if_pos rfl]
        exact List.cons_prefix_cons.mpr ⟨rfl, ih ys⟩
      · simp [commonPathComps, hxy]

theorem commonPathComps_eq_iff (a b : List Comp) :
    commonPathComps a b = a ↔ a <+: b := by
  induction a generalizing b with
  | nil => cases b <;> simp [commonPathComps]
  | cons x xs ih =>
    cases b with
    | nil => simp [commonPathComps]
    | cons y ys =>
      by_cases hxy : x = y
      · subst hxy
        simp [commonPathComps, List.cons_prefix_cons, ih ys]
      · simp [commonPathComps, hxy, List.cons_prefix_cons]

theorem renderComps_pos (d : Comp) (ds : List Comp) (hd : d ≠ "") :
    0 < (renderComps (d :: ds)).length := by
  have hdata : d.data ≠ [] := by
    intro h
    apply hd
    cases d
    simp at h
    simp [h]
  have hlen : 0 < d.length := by
    cases d with
    | mk cs =>
      cases cs with
      | nil => simp at hdata
      | cons c cs' => simp [String.length]
  cases ds with
  | nil => simpa [renderComps] using hlen
  | cons e es =>
    have : renderComps (d :: e :: es) = d ++ "/" ++ renderComps (e :: es) := rfl
    rw [this]
    simp [String.length_append]
    omega

theorem renderComps_lt (cs ds : List Comp) (hds : ds ≠ [])
    (hne : ∀ c ∈ ds, c ≠ "") :
    (renderComps cs).length < (renderComps (cs ++ ds)).length := by
  induction cs with
  | nil =>
    cases ds with
    | nil => exact absurd rfl hds
    | cons d ds' =>
      simpa [renderComps] using renderComps_pos d ds' (hne d (by simp))
  | cons c cs' ih =>
    cases cs' with
    | nil =>
      cases ds with
      | nil => exact absurd rfl hds
      | cons d ds' =>
        have h1 : renderComps [c] = c := rfl
        have h2 : renderComps ([c] ++ d :: ds') = c ++ "/" ++ renderComps (d :: ds') :=
          rfl
        rw [h1, h2]
        have hs : ("/" : String).length = 1 := rfl
        simp only [String.length_append, hs]
        omega
    | cons c2 cs'' =>
      have h1 : renderComps (c :: c2 :: cs'') = c ++ "/" ++ renderComps (c2 :: cs'') :=
        rfl
      have h2 : renderComps ((c :: c2 :: cs'') ++ ds)
          = c ++ "/" ++ renderComps ((c2 :: cs'') ++ ds) := rfl
      rw [h1, h2]
      have hs : ("/" : String).length = 1 := rfl
      simp only [String.length_append, hs, List.cons_append] at ih ⊢
      omega

theorem data_length_eq_length (s : String) : s.data.length = s.length := by
  cases s
  rfl

theorem pyIn_render_iff (r c : List Comp) (hpre : c <+: r)
    (hne : ∀ x ∈ r, x ≠ "") :
    pyIn (render ⟨true, r⟩) (render ⟨true, c⟩) = true ↔ c = r := by
  constructor
  · intro h
    by_contra hcr
    obtain ⟨ds, rfl⟩ := hpre
    have hds : ds ≠ [] := by
      rintro rfl
      simp at hcr
    have hlt : (renderComps c).length < (renderComps (c ++ ds)).length :=
      renderComps_lt c ds hds (fun x hx => hne x (by simp [hx]))
    have hinf : (render ⟨true, c ++ ds⟩).data <:+: (render ⟨true, c⟩).data :=
      of_decide_eq_true h
    have hle := hinf.length_le
    rw [data_length_eq_length, data_length_eq_length] at hle
    simp [render, String.length_append] at hle
    omega
  · rintro rfl
    exact decide_eq_true (List.infix_refl _)

/-- Characterization of the source validator: it accepts exactly those names
whose trimmed form, joined onto **root** and canonicalized, still has root's
components as a prefix (the `self.root in common` substring test collapses to
component-wise prefix because `commonpath` output is a component-wise
truncation of `root`). -/
theorem isNameValid_iff_root_le (root name : PyPath) (habs : root.absFlag = true)
    (hne : ∀ c ∈ root.comps, c ≠ "") :
    isNameValid root name = true ↔
      root.comps <+: (pyNormalize (pyJoin root (trimAnchor name))).comps := by
  have hr : render root = render ⟨true, root.comps⟩ := by
    cases root
    simp_all [render]
  unfold isNameValid
  simp only [hr]
  rw [pyIn_render_iff root.comps
    (commonPathComps root.comps (pyNormalize (pyJoin root (trimAnchor name))).comps)
    (commonPathComps_self_sub _ _) hne]
  exact commonPathComps_eq_iff _ _

theorem startDatasock_pasv (s : Session) :
    (startDatasock s).2.pasvMode = s.pasvMode := by
  unfold startDatasock
  split
  · cases s.serversocket <;> rfl
  · cases s.dataAddr <;> cases s.dataPort <;> rfl

theorem createOrAppend_pasv (s : Session) (fs : FS) (mode : String) (a : PyPath)
    (i : String) : (createOrAppend s fs mode a i).2.1.pasvMode = s.pasvMode := by
  unfold createOrAppend
  split
  · rfl
  · have hps := startDatasock_pasv s
    rcases hsd : startDatasock s with ⟨od, s1⟩
    rw [hsd] at hps
    cases od with
    | none => simpa using hps
    | some d =>
      by_cases ht : s1.ttype = "I" ∧ mode ≠ "wb"
      · simpa [ht] using hps
      · cases hwf : FS.writeFile fs (opPath s1 a) (recvLine i) (mode = "a") <;>
          simpa [ht, hwf] using hps

theorem find_after_filter (l : List (List Comp × String)) (p : List Comp)
    (c : String) :
    ((l.filter (fun e => decide (e.fst ≠ p)) ++ [(p, c)]).find?
        (fun e => decide (e.fst = p))) = some (p, c) := by
  induction l with
  | nil => simp [List.find?]
  | cons a l ih =>
    by_cases hap : a.fst = p
    · simp only [List.filter_cons, hap]
      simp
    · simp only [List.filter_cons, hap]
      simp [List.find?_cons, hap]

theorem fileContent_writeFile (fs : FS) (p : List Comp) (c : String) (fs' : FS)
    (h : fs.writeFile p c false = some fs') : fs'.fileContent p = some c := by
  unfold FS.writeFile at h
  split at h
  · simp at h
  · simp only [Option.some.injEq] at h
    subst h
    simp only [FS.fileContent]
    rw [find_after_filter]
    rfl

/- ------------------------------------------------------------------ -/
/- Claims                                                             -/
/- ------------------------------------------------------------------ -/

/-- Claim C1: every client-supplied name with enough `..` segments to resolve
outside the configured root is rejected by `_is_name_valid` for every cwd, so
no filesystem-touching command operates on such a path.  The code violates
this.  With root `/a/b` and session cwd `/a/b/c`, the name `../../a/b/x`
resolves (against cwd, as every filesystem command resolves its argument) to
`/a/a/b/x`, outside the root — yet the validator, which joins the name onto
root instead of cwd, accepts it, and DELE then removes the file `/a/a/b/x`
that lies outside the jail. -/
theorem c1_jail_accepts_escaping_name :
    isNameValid ⟨true, ["a", "b"]⟩ ⟨false, ["..", "..", "a", "b", "x"]⟩ = true ∧
    (pyNormalize (pyJoin ⟨true, ["a", "b", "c"]⟩
        ⟨false, ["..", "..", "a", "b", "x"]⟩)).comps = ["a", "a", "b", "x"] ∧
    ¬ (["a", "b"] <+: ["a", "a", "b", "x"]) ∧
    (execCmd (.dele ⟨false, ["..", "..", "a", "b", "x"]⟩)
        { Session.init ⟨true, ["a", "b"]⟩ with cwd := .ofStr ⟨true, ["a", "b", "c"]⟩ }
        ⟨[["a", "b"], ["a", "b", "c"], ["a", "a", "b"]],
         [(["a", "a", "b", "x"], "secret")]⟩).status = 250 ∧
    (execCmd (.dele ⟨false, ["..", "..", "a", "b", "x"]⟩)
        { Session.init ⟨true, ["a", "b"]⟩ with cwd := .ofStr ⟨true, ["a", "b", "c"]⟩ }
        ⟨[["a", "b"], ["a", "b", "c"], ["a", "a", "b"]],
         [(["a", "a", "b", "x"], "secret")]⟩).fs.files = [] := by
  decide

/-- Claim C2: across every command sequence, cwd stays root or a proper
descendant of root; CDUP clamps at root.  The code violates this: `CWD a/..`
(with directory `a` existing) stores the unnormalized path `/home/ftp/a/..`,
which the CDUP guard `self.cwd == self.root` does not recognise as root, so
the following CDUP sets cwd to `/home` — a proper ancestor of the root
`/home/ftp`. -/
theorem c2_cwd_escapes_root :
    (execCmd (.cwd ⟨false, ["a", ".."]⟩) (Session.init ⟨true, ["home", "ftp"]⟩)
      ⟨[["home", "ftp"], ["home", "ftp", "a"]], []⟩).status = 250 ∧
    (execCmd .cdup
      (execCmd (.cwd ⟨false, ["a", ".."]⟩) (Session.init ⟨true, ["home", "ftp"]⟩)
        ⟨[["home", "ftp"], ["home", "ftp", "a"]], []⟩).sess
      ⟨[["home", "ftp"], ["home", "ftp", "a"]], []⟩).status = 230 ∧
    (execCmd .cdup
      (execCmd (.cwd ⟨false, ["a", ".."]⟩) (Session.init ⟨true, ["home", "ftp"]⟩)
        ⟨[["home", "ftp"], ["home", "ftp", "a"]], []⟩).sess
      ⟨[["home", "ftp"], ["home", "ftp", "a"]], []⟩).sess.cwd
        = .ofStr ⟨true, ["home"]⟩ ∧
    ¬ cwdInsideRoot (.ofStr ⟨true, ["home"]⟩) ⟨true, ["home", "ftp"]⟩ := by
  decide

/-- Claim C3 counterexample: the claim says the validator joins the trimmed
name onto cwd, and that for a relative name and a cwd strictly below root both
validation and operation resolve against cwd.  With root `/r` and cwd `/r/d`,
the name `../e` resolves against cwd to `/r/e`, inside the root, so the
claimed algorithm accepts it — but `_is_name_valid` joins it onto the root,
obtains `/e`, and rejects it, while the DELE/RETR operation path is indeed the
cwd-resolved `/r/e`. -/
theorem c3_validator_uses_root_not_cwd :
    specPathJailValid ⟨true, ["r"]⟩ ⟨true, ["r", "d"]⟩ ⟨false, ["..", "e"]⟩ = true ∧
    isNameValid ⟨true, ["r"]⟩ ⟨false, ["..", "e"]⟩ = false ∧
    opPath { Session.init ⟨true, ["r"]⟩ with cwd := .ofStr ⟨true, ["r", "d"]⟩ }
      ⟨false, ["..", "e"]⟩ = ["r", "e"] := by
  decide

/-- Claim C3 (amended): `_is_name_valid` strips the anchor and joins the name
onto **root** (not cwd), canonicalizes, and accepts exactly when root's
canonical components are a component-wise prefix of the result (the
`self.root in common` substring test collapses to this); the filesystem
operations meanwhile resolve the raw name against cwd, so validation and
operation use different bases whenever cwd is strictly below root. -/
theorem c3_amended_validator_characterization (root name : PyPath)
    (habs : root.absFlag = true) (hne : ∀ c ∈ root.comps, c ≠ "") :
    isNameValid root name = true ↔
      root.comps <+: (pyNormalize (pyJoin root (trimAnchor name))).comps :=
  isNameValid_iff_root_le root name habs hne

theorem c3_amended_witness :
    isNameValid ⟨true, ["r"]⟩ ⟨false, ["x"]⟩ = true ↔
      ["r"] <+: (pyNormalize (pyJoin ⟨true, ["r"]⟩
        (trimAnchor ⟨false, ["x"]⟩))).comps :=
  c3_amended_validator_characterization ⟨true, ["r"]⟩ ⟨false, ["x"]⟩ rfl
    (by intro c hc; rw [List.mem_singleton] at hc; subst hc; decide)

/-- Claim C4 counterexample: the claim says RNTO without a prior RNFR replies
`553`.  On a fresh session with a jail-legal target name, `RNTO b` instead
raises `AttributeError` on the never-assigned `filename_cache`, and the loop's
exception handler replies `500`, not `553` (no rename happens). -/
theorem c4_rnto_without_rnfr_replies_500 :
    (execCmd (.rnto ⟨false, ["b"]⟩) (Session.init ⟨true, ["r"]⟩)
        ⟨[["r"]], []⟩).status = 500 ∧
    (execCmd (.rnto ⟨false, ["b"]⟩) (Session.init ⟨true, ["r"]⟩)
        ⟨[["r"]], []⟩).status ≠ 553 ∧
    (execCmd (.rnto ⟨false, ["b"]⟩) (Session.init ⟨true, ["r"]⟩)
        ⟨[["r"]], []⟩).fs = ⟨[["r"]], []⟩ := by
  decide

/-- Claim C4 (amended): on a session whose `filename_cache` was never
assigned, RNTO with a jail-rejected name replies `553`, and with an accepted
name raises `AttributeError`, which the command loop converts into the generic
`500` reply; in both cases no rename happens, the session is unchanged, and
the loop continues with the next command. -/
theorem c4_amended_rnto_without_rnfr (s : Session) (fs : FS) (arg : PyPath)
    (rest : List Event) (hc : s.filenameCache = none) :
    (execCmd (.rnto arg) s fs).status
        = (if isNameValid s.root arg = true then 500 else 553) ∧
    (execCmd (.rnto arg) s fs).fs = fs ∧
    (execCmd (.rnto arg) s fs).sess = s ∧
    (runLoop s fs (.known (.rnto arg) :: rest)).1
        = (execCmd (.rnto arg) s fs).status :: (runLoop s fs rest).1 := by
  by_cases hv : isNameValid s.root arg = true
  · simp [execCmd, execRNTO, hc, hv, mkOut, Out.status, runLoop]
  · have hv' : isNameValid s.root arg = false := by
      cases h : isNameValid s.root arg
      · rfl
      · exact absurd h hv
    simp [execCmd, execRNTO, hc, hv', mkOut, Out.status, runLoop]

theorem c4_amended_witness :
    (execCmd (.rnto ⟨false, ["b"]⟩) (Session.init ⟨true, ["r"]⟩)
        ⟨[["r"]], []⟩).status
      = (if isNameValid (Session.init ⟨true, ["r"]⟩).root ⟨false, ["b"]⟩ = true
          then 500 else 553) ∧
    (execCmd (.rnto ⟨false, ["b"]⟩) (Session.init ⟨true, ["r"]⟩)
        ⟨[["r"]], []⟩).fs = ⟨[["r"]], []⟩ ∧
    (execCmd (.rnto ⟨false, ["b"]⟩) (Session.init ⟨true, ["r"]⟩)
        ⟨[["r"]], []⟩).sess = Session.init ⟨true, ["r"]⟩ ∧
    (runLoop (Session.init ⟨true, ["r"]⟩) ⟨[["r"]], []⟩
        [.known (.rnto ⟨false, ["b"]⟩), .known .noop]).1
      = (execCmd (.rnto ⟨false, ["b"]⟩) (Session.init ⟨true, ["r"]⟩)
          ⟨[["r"]], []⟩).status
        :: (runLoop (Session.init ⟨true, ["r"]⟩) ⟨[["r"]], []⟩ [.known .noop]).1 :=
  c4_amended_rnto_without_rnfr (Session.init ⟨true, ["r"]⟩) ⟨[["r"]], []⟩
    ⟨false, ["b"]⟩ [.known .noop] rfl

/-- Claim C5 counterexample: the claim says RNTO (on success or failure)
consumes **and clears** the pending-rename cache.  After `RNFR a` (file
exists, `350`) and a successful `RNTO b` (`250`), `filename_cache` still
holds `a`: the code never clears it, so a later RNTO can observe the stale
source name. -/
theorem c5_cache_not_cleared :
    (execCmd (.rnfr ⟨false, ["a"]⟩) (Session.init ⟨true, ["r"]⟩)
        ⟨[["r"]], [(["r", "a"], "x")]⟩).status = 350 ∧
    (execCmd (.rnto ⟨false, ["b"]⟩)
        (execCmd (.rnfr ⟨false, ["a"]⟩) (Session.init ⟨true, ["r"]⟩)
          ⟨[["r"]], [(["r", "a"], "x")]⟩).sess
        (execCmd (.rnfr ⟨false, ["a"]⟩) (Session.init ⟨true, ["r"]⟩)
          ⟨[["r"]], [(["r", "a"], "x")]⟩).fs).status = 250 ∧
    (execCmd (.rnto ⟨false, ["b"]⟩)
        (execCmd (.rnfr ⟨false, ["a"]⟩) (Session.init ⟨true, ["r"]⟩)
          ⟨[["r"]], [(["r", "a"], "x")]⟩).sess
        (execCmd (.rnfr ⟨false, ["a"]⟩) (Session.init ⟨true, ["r"]⟩)
          ⟨[["r"]], [(["r", "a"], "x")]⟩).fs).sess.filenameCache
      = some ⟨false, ["a"]⟩ := by
  decide

/-- Claim C5 (amended): a successful RNFR (reply `350`) sets the
pending-rename cache to its argument, but RNTO never clears it — the cache
value survives every RNTO unchanged, so the cached source name persists until
the next RNFR overwrites it. -/
theorem c5_amended_cache_set_never_cleared (s : Session) (fs : FS)
    (arg : PyPath) :
    (execCmd (.rnto arg) s fs).sess.filenameCache = s.filenameCache ∧
    ((execCmd (.rnfr arg) s fs).status = 350 →
      (execCmd (.rnfr arg) s fs).sess.filenameCache = some arg) := by
  constructor
  · show (execRNTO s fs arg).sess.filenameCache = s.filenameCache
    unfold execRNTO
    split
    · rfl
    · cases hfc : s.filenameCache with
      | none => exact hfc
      | some old =>
        cases hre : fs.renameEntry (opPath s old) (opPath s arg) <;>
          simp [hre, mkOut, hfc]
  · intro h350
    have h350' : (execRNFR s fs arg).status = 350 := h350
    show (execRNFR s fs arg).sess.filenameCache = some arg
    unfold execRNFR at h350' ⊢
    by_cases h1 : isNameValid s.root arg = false
    · rw [if_pos h1] at h350'
      simp [mkOut, Out.status] at h350'
    · rw [if_neg h1] at h350' ⊢
      by_cases h2 : fs.existsPath (opPath s arg) = false
      · rw [if_pos h2] at h350'
        simp [mkOut, Out.status] at h350'
      · rw [if_neg h2]
        rfl

theorem c5_amended_witness :
    (execCmd (.rnto ⟨false, ["b"]⟩) (Session.init ⟨true, ["r"]⟩)
        ⟨[["r"]], []⟩).sess.filenameCache
      = (Session.init ⟨true, ["r"]⟩).filenameCache ∧
    (execCmd (.rnfr ⟨false, ["a"]⟩) (Session.init ⟨true, ["r"]⟩)
        ⟨[["r"]], [(["r", "a"], "x")]⟩).sess.filenameCache
      = some ⟨false, ["a"]⟩ :=
  ⟨(c5_amended_cache_set_never_cleared (Session.init ⟨true, ["r"]⟩)
      ⟨[["r"]], []⟩ ⟨false, ["b"]⟩).1,
   (c5_amended_cache_set_never_cleared (Session.init ⟨true, ["r"]⟩)
      ⟨[["r"]], [(["r", "a"], "x")]⟩ ⟨false, ["a"]⟩).2 (by decide)⟩

/-- Claim C6 counterexample: the claim says that after QUIT the loop reads no
further command lines.  The `run` loop of the code never breaks on QUIT: after
replying `221` to QUIT it processes the next line — here a NOOP, answered with
`200`. -/
theorem c6_loop_continues_after_quit :
    (runLoop (Session.init ⟨true, ["r"]⟩) ⟨[["r"]], []⟩
      [.known .quit, .known .noop, .closed]).1 = [221, 200] := by
  decide

/-- Claim C6 (amended): QUIT only sends the `221` reply and changes nothing —
the command loop keeps reading and processing further lines after it, and
terminates exactly when a read yields an empty verb (stream close). -/
theorem c6_amended_quit_does_not_close (s : Session) (fs : FS)
    (rest : List Event) :
    (runLoop s fs (.known .quit :: rest)).1 = 221 :: (runLoop s fs rest).1 ∧
    runLoop s fs (.closed :: rest) = ([], s, fs) := by
  constructor
  · simp [runLoop, execCmd, mkOut, Out.status]
  · simp [runLoop]

/-- Claim C7: on a session where neither PORT nor PASV has succeeded
(`pasv_mode` still false, no `data_addr` registered), STOR yields an
error-class control reply and no file is created, and the session loop
continues.  A jail-rejected name gives `501` directly; otherwise
`_start_datasock` assigns the fresh socket object to `datasocket` and then
raises on the missing `data_addr`/`data_port`, so the loop's exception
handler replies `500` (after the preliminary `150`).  Either way the
filesystem is unchanged, the session is unchanged except for the stale
`datasocket` attribute left behind on the raised path, and the next command
is processed. -/
theorem c7_stor_without_channel (s : Session) (fs : FS) (arg : PyPath)
    (incoming : String) (rest : List Event)
    (hp : s.pasvMode = false) (ha : s.dataAddr = none) :
    ((execCmd (.stor arg incoming) s fs).status = 500 ∨
      (execCmd (.stor arg incoming) s fs).status = 501) ∧
    (execCmd (.stor arg incoming) s fs).fs = fs ∧
    (execCmd (.stor arg incoming) s fs).sess
      = (if isNameValid s.root arg = true then { s with datasocket := true }
          else s) ∧
    (runLoop s fs (.known (.stor arg incoming) :: rest)).1
      = (execCmd (.stor arg incoming) s fs).pre
          ++ (execCmd (.stor arg incoming) s fs).status
            :: (runLoop (execCmd (.stor arg incoming) s fs).sess
                (execCmd (.stor arg incoming) s fs).fs rest).1 := by
  have hsd : startDatasock s = (none, { s with datasocket := true }) := by
    unfold startDatasock
    rw [hp]
    simp only [Bool.false_eq_true, if_false]
    rw [ha]
  by_cases hv : isNameValid s.root arg = false
  · have hv' : (isNameValid s.root arg = true) = False := by simp [hv]
    simp [execCmd, execSTOR, createOrAppend, hv, hv', runLoop, Out.status]
  · simp [execCmd, execSTOR, createOrAppend, hv, hsd, runLoop, Out.status]

theorem c7_stor_without_channel_witness :
    ((execCmd (.stor ⟨false, ["f"]⟩ "hi") (Session.init ⟨true, ["r"]⟩)
        ⟨[["r"]], []⟩).status = 500 ∨
      (execCmd (.stor ⟨false, ["f"]⟩ "hi") (Session.init ⟨true, ["r"]⟩)
        ⟨[["r"]], []⟩).status = 501) ∧
    (execCmd (.stor ⟨false, ["f"]⟩ "hi") (Session.init ⟨true, ["r"]⟩)
        ⟨[["r"]], []⟩).fs = ⟨[["r"]], []⟩ ∧
    (execCmd (.stor ⟨false, ["f"]⟩ "hi") (Session.init ⟨true, ["r"]⟩)
        ⟨[["r"]], []⟩).sess
      = (if isNameValid (Session.init ⟨true, ["r"]⟩).root ⟨false, ["f"]⟩ = true
          then { Session.init ⟨true, ["r"]⟩ with datasocket := true }
          else Session.init ⟨true, ["r"]⟩) ∧
    (runLoop (Session.init ⟨true, ["r"]⟩) ⟨[["r"]], []⟩
        [.known (.stor ⟨false, ["f"]⟩ "hi"), .known .noop]).1
      = (execCmd (.stor ⟨false, ["f"]⟩ "hi") (Session.init ⟨true, ["r"]⟩)
          ⟨[["r"]], []⟩).pre
        ++ (execCmd (.stor ⟨false, ["f"]⟩ "hi") (Session.init ⟨true, ["r"]⟩)
            ⟨[["r"]], []⟩).status
          :: (runLoop (execCmd (.stor ⟨false, ["f"]⟩ "hi")
                (Session.init ⟨true, ["r"]⟩) ⟨[["r"]], []⟩).sess
              (execCmd (.stor ⟨false, ["f"]⟩ "hi") (Session.init ⟨true, ["r"]⟩)
                ⟨[["r"]], []⟩).fs [.known .noop]).1 :=
  c7_stor_without_channel (Session.init ⟨true, ["r"]⟩) ⟨[["r"]], []⟩
    ⟨false, ["f"]⟩ "hi" [.known .noop] rfl rfl

/-- Claim C9: for every port the PASV listener binds (below 65536), the two
encoded bytes `p1 = port >> 8 & 0xFF` and `p2 = port & 0xFF` of the `227`
reply satisfy `p1 * 256 + p2 = port` — PASV encoding is the exact inverse of
PORT's `(p1 << 8) + p2` decoding — and the advertised `(host, port)` pair is
the address of the socket actually bound (the handler stores and encodes the
very same `getsockname()` result). -/
theorem c9_pasv_encoding_inverse (s : Session) (fs : FS) (h : String) (p : Nat)
    (hp : p < 65536) :
    (execCmd (.pasv (h, p)) s fs).status = 227 ∧
    (execCmd (.pasv (h, p)) s fs).sess.serversocket = some (h, p) ∧
    (execCmd (.pasv (h, p)) s fs).sess.dataAddr = some h ∧
    (execCmd (.pasv (h, p)) s fs).sess.dataPort = some p ∧
    (execCmd (.pasv (h, p)) s fs).pasvAdvert
        = some (pasvHostEnc h, pasvP1 p, pasvP2 p) ∧
    portDecode (pasvP1 p) (pasvP2 p) = p ∧
    pasvP1 p * 256 + pasvP2 p = p := by
  have h255 : (255 : Nat) = 2 ^ 8 - 1 := by norm_num
  have hand : ∀ x : Nat, x &&& 255 = x % 256 := by
    intro x
    rw [h255, Nat.and_pow_two_sub_one_eq_mod]
  have hshr : p >>> 8 = p / 256 := by
    rw [Nat.shiftRight_eq_div_pow]
  have hp1 : pasvP1 p = p / 256 % 256 := by
    unfold pasvP1
    rw [hshr, hand]
  have hp2 : pasvP2 p = p % 256 := by
    unfold pasvP2
    rw [hand]
  have hshl : ∀ x : Nat, x <<< 8 = x * 256 := by
    intro x
    rw [Nat.shiftLeft_eq]
  refine ⟨rfl, rfl, rfl, rfl, rfl, ?_, ?_⟩
  · unfold portDecode
    rw [hp1, hp2, hshl]
    omega
  · rw [hp1, hp2]
    omega

theorem c9_pasv_encoding_inverse_witness :
    (execCmd (.pasv ("127.0.0.1", 4242)) (Session.init ⟨true, ["r"]⟩)
        ⟨[["r"]], []⟩).status = 227 ∧
    (execCmd (.pasv ("127.0.0.1", 4242)) (Session.init ⟨true, ["r"]⟩)
        ⟨[["r"]], []⟩).sess.serversocket = some ("127.0.0.1", 4242) ∧
    (execCmd (.pasv ("127.0.0.1", 4242)) (Session.init ⟨true, ["r"]⟩)
        ⟨[["r"]], []⟩).sess.dataAddr = some "127.0.0.1" ∧
    (execCmd (.pasv ("127.0.0.1", 4242)) (Session.init ⟨true, ["r"]⟩)
        ⟨[["r"]], []⟩).sess.dataPort = some 4242 ∧
    (execCmd (.pasv ("127.0.0.1", 4242)) (Session.init ⟨true, ["r"]⟩)
        ⟨[["r"]], []⟩).pasvAdvert
      = some (pasvHostEnc "127.0.0.1", pasvP1 4242, pasvP2 4242) ∧
    portDecode (pasvP1 4242) (pasvP2 4242) = 4242 ∧
    pasvP1 4242 * 256 + pasvP2 4242 = 4242 :=
  c9_pasv_encoding_inverse (Session.init ⟨true, ["r"]⟩) ⟨[["r"]], []⟩
    "127.0.0.1" 4242 (by norm_num)

/-- Claim C10: once PASV has succeeded, `pasv_mode` is never reset to false by
any later command (no handler, `PORT` and `_stop_datasock` included, ever
assigns it false), and after PASV followed by PORT the next transfer still
acquires its data socket by accepting on the passive listener instead of
dialing the PORT target. -/
theorem c10_pasv_mode_monotone (c : Cmd) (s : Session) (fs : FS)
    (hp : s.pasvMode = true) :
    (execCmd c s fs).sess.pasvMode = true ∧
    (∀ (s2 : Session) (fs2 : FS) (bound : String × Nat) (h : String)
        (p1 p2 : Nat),
      startDatasock (execCmd (.port h p1 p2) (execCmd (.pasv bound) s2 fs2).sess
          (execCmd (.pasv bound) s2 fs2).fs).sess
        = (some .accepted,
            { (execCmd (.port h p1 p2) (execCmd (.pasv bound) s2 fs2).sess
                (execCmd (.pasv bound) s2 fs2).fs).sess with datasocket := true })) := by
  refine ⟨?_, fun s2 fs2 bound h p1 p2 => rfl⟩
  cases c with
  | abor =>
    simp only [execCmd, execABOR]
    split
    · exact hp
    · split
      · exact hp
      · exact hp
  | acct => exact hp
  | noop => exact hp
  | syst => exact hp
  | feat => exact hp
  | user => exact hp
  | pass => exact hp
  | quit => exact hp
  | pwd => exact hp
  | stru arg =>
    simp only [execCmd, execSTRU]
    split <;> exact hp
  | typeCmd arg =>
    simp only [execCmd, execTYPE]
    split <;> exact hp
  | port h p1 p2 => exact hp
  | pasv bound => rfl
  | cwd arg =>
    simp only [execCmd, execCWD]
    split
    · exact hp
    · split <;> exact hp
  | cdup =>
    simp only [execCmd, execCDUP]
    split <;> exact hp
  | mkd arg =>
    simp only [execCmd, execMKD]
    split
    · exact hp
    · split
      · exact hp
      · split <;> exact hp
  | rmd arg =>
    simp only [execCmd, execRMD]
    split
    · exact hp
    · split
      · exact hp
      · split
        · exact hp
        · split <;> exact hp
  | dele arg =>
    simp only [execCmd, execDELE]
    split
    · exact hp
    · split
      · exact hp
      · split <;> exact hp
  | rnfr arg =>
    simp only [execCmd, execRNFR]
    split
    · exact hp
    · split <;> exact hp
  | rnto arg =>
    simp only [execCmd, execRNTO]
    split
    · exact hp
    · split
      · exact hp
      · split <;> exact hp
  | retr arg =>
    simp only [execCmd, execRETR]
    split
    · exact hp
    · split
      · exact hp
      · have hps := startDatasock_pasv s
        rcases hsd : startDatasock s with ⟨od, s1⟩
        rw [hsd] at hps
        cases od with
        | none => simpa using hps.trans hp
        | some d =>
          cases hfc : fs.fileContent (opPath s arg) <;>
            simpa [hfc] using hps.trans hp
  | stor arg i =>
    simp only [execCmd, execSTOR]
    have hca := createOrAppend_pasv s fs (if s.ttype = "A" then "w" else "wb") arg i
    rcases hr : createOrAppend s fs (if s.ttype = "A" then "w" else "wb") arg i
      with ⟨res, s1, fs1, pre⟩
    rw [hr] at hca
    cases res <;> exact hca.trans hp
  | appe arg i =>
    simp only [execCmd, execAPPE]
    have hca := createOrAppend_pasv s fs "a" arg i
    rcases hr : createOrAppend s fs "a" arg i with ⟨res, s1, fs1, pre⟩
    rw [hr] at hca
    cases res <;> exact hca.trans hp
  | listCmd =>
    simp only [execCmd, execLIST]
    have hps := startDatasock_pasv s
    rcases hsd : startDatasock s with ⟨od, s1⟩
    rw [hsd] at hps
    cases od with
    | none => simpa using hps.trans hp
    | some d =>
      by_cases hdir : fs.isDir (pyNormalize (cwdPath s.cwd)).comps = false <;>
        simpa [hdir] using hps.trans hp
  | nlst =>
    simp only [execCmd, execLIST]
    have hps := startDatasock_pasv s
    rcases hsd : startDatasock s with ⟨od, s1⟩
    rw [hsd] at hps
    cases od with
    | none => simpa using hps.trans hp
    | some d =>
      by_cases hdir : fs.isDir (pyNormalize (cwdPath s.cwd)).comps = false <;>
        simpa [hdir] using hps.trans hp
  | noMethod => exact hp

theorem c10_pasv_mode_monotone_witness :
    (execCmd .noop { Session.init ⟨true, ["r"]⟩ with pasvMode := true }
        ⟨[["r"]], []⟩).sess.pasvMode = true :=
  (c10_pasv_mode_monotone .noop
    { Session.init ⟨true, ["r"]⟩ with pasvMode := true } ⟨[["r"]], []⟩ rfl).1

end FtpSock
